import Mathlib

/-!
Verification of the PyGeoTess accessor layer (`src/geotess/grid.py`)
against its specification.

The Python class `Grid` wraps a native tessellation engine object
(`geotess.libgeotess.GeoTessGrid`).  The Cython/C++ sources of that engine
are not part of `src/`, so the engine is embedded abstractly: a structure of
pure query functions (the spec states that all queries are read-only and
deterministic).  Python exceptions are embedded with `Except PyError`;
every method additionally reports the post-state of the `Grid` object and
the trace of engine calls it performed, so that read-only / frame claims
can be stated.
-/

namespace PyGeoTess

/-- Python exceptions that the code under `src/geotess/grid.py` can raise. -/
inductive PyError
  | attributeError (msg : String)
  | nameError (msg : String)
  | typeError (msg : String)
  deriving Repr, DecidableEq

/-- One call into the native engine library, as performed by the Python code. -/
inductive EngineCall
  | getFirstTriangle (tess level : Int)
  | getLastTriangle (tess level : Int)
  | getTriangleVertexIndexes (tid : Int)
  | toStringQuery
  | newGridCtor
  | loadGridCall (path : String)
  deriving Repr, DecidableEq

/-- Whether an engine call is a read-only query.  Constructing a fresh engine
object and deserializing a file into it are the only non-query calls that
`grid.py` can make. -/
def EngineCall.readOnly : EngineCall → Bool
  | .newGridCtor => false
  | .loadGridCall _ => false
  | _ => true

/-- Modelled from the spec: the interface of the native engine class
`geotess.libgeotess.GeoTessGrid`, whose Cython/C++ implementation is not under
`src/` (only `grid.py`, its caller, is).  Per the spec all its query methods
are read-only and deterministic, so they are embedded as pure functions.
Python integers are unbounded, hence `Int`. -/
structure GeoTessGrid where
  getFirstTriangle : Int → Int → Int
  getLastTriangle : Int → Int → Int
  getTriangleVertexIndexes : Int → Int × Int × Int
  toStringQuery : String

/-- Modelled from the spec: the `geotess.libgeotess` module as used by
`grid.py`: the `GeoTessGrid()` engine constructor and the `loadGrid`
deserialization (load a grid file into a fresh engine object). -/
structure LibGeoTess where
  newGrid : GeoTessGrid
  loadGrid : GeoTessGrid → String → GeoTessGrid

/-- The Python class `geotess.grid.Grid`: its `__init__` sets exactly one
instance attribute, `_grid`, which holds the engine handle or `None`. -/
structure Grid where
  _grid : Option GeoTessGrid

/-- Outcome of running one Python method on a `Grid`: the post-state of the
object, the trace of engine calls performed, and the returned value or the
exception raised. -/
structure PyResult (α : Type) where
  post : Grid
  calls : List EngineCall
  ret : Except PyError α

/-- `Grid.__init__(self, gridfile=None)`: with a truthy `gridfile` it
constructs an engine object and loads the file into it; otherwise (`None`, or
the falsy empty string) it leaves `_grid = None`.  Returns the constructed
object together with the engine calls performed. -/
def Grid.init (lib : LibGeoTess) (gridfile : Option String) : Grid × List EngineCall :=
  match gridfile with
  | some s =>
      if s = "" then ({ _grid := none }, [])
      else ({ _grid := some (lib.loadGrid lib.newGrid s) },
            [.newGridCtor, .loadGridCall s])
  | none => ({ _grid := none }, [])

/-- `Grid.from_geotessgrid(cls, gtgrid)`: builds an empty `Grid` via `cls()`
and then assigns the passed engine instance to its `_grid` attribute. -/
def Grid.from_geotessgrid (lib : LibGeoTess) (gtgrid : GeoTessGrid) :
    Grid × List EngineCall :=
  let gc := Grid.init lib none
  ({ gc.1 with _grid := some gtgrid }, gc.2)

/-- `Grid.triangles(self, tess, level, masked=None)`: reads the level's
triangle-index range from the engine (`getFirstTriangle`, `getLastTriangle`),
iterates `range(first, last)` and collects `getTriangleVertexIndexes` for each
id into the output rows.  The `masked` parameter is accepted but never read
(its filter is unimplemented in the source).  When `_grid` is `None`, the
first attribute dereference raises AttributeError. -/
def Grid.triangles (self : Grid) (tess level : Int) (masked : Option Bool) :
    PyResult (List (Int × Int × Int)) :=
  match self._grid with
  | none =>
      { post := self, calls := []
        ret := .error (.attributeError "NoneType object has no attribute getFirstTriangle") }
  | some g =>
      let first := g.getFirstTriangle tess level
      let last := g.getLastTriangle tess level
      let ids := (List.range (last - first).toNat).map (fun i : Nat => first + (i : Int))
      { post := self
        calls := [.getFirstTriangle tess level, .getLastTriangle tess level]
                   ++ ids.map (fun tid => .getTriangleVertexIndexes tid)
        ret := .ok (ids.map (fun tid => g.getTriangleVertexIndexes tid)) }

/-- Attribute access `self.layers` on a `Grid` instance: `Grid.__init__` sets
only the `_grid` attribute and the class defines no `layers`, so the lookup
raises AttributeError. -/
def Grid.layersAttr (_self : Grid) : Except PyError Unit :=
  .error (.attributeError "Grid object has no attribute layers")

/-- Evaluation of the global name `layer` inside `Grid.vertices`: no such
name exists in the module, so if it were reached it would raise NameError.
(`self.layers` is evaluated first in `self.layers[layer]`, so this point is
never reached.) -/
def layerGlobal : Except PyError Unit :=
  .error (.nameError "name layer is not defined")

/-- `Grid.vertices(self, tess=None, level=None, connected=True)`: the body is
`try: tessellation = self.layers[layer].tess_id / except TypeError:
tessellation = dict(self.layers)[layer]` followed by comments and `pass`.
Both the try body and the handler start by evaluating `self.layers`, then the
global `layer`; only TypeError is caught.  If control ever fell through, the
method would return `None` (embedded as `Unit`). -/
def Grid.vertices (self : Grid) (tess level : Option Int) (connected : Bool) :
    PyResult Unit :=
  let tryBody : Except PyError Unit := do
    let _ ← self.layersAttr
    let _ ← layerGlobal
    pure ()
  let afterTry : Except PyError Unit :=
    match tryBody with
    | .ok v => .ok v
    | .error e =>
        match e with
        | .typeError _ => do
            let _ ← self.layersAttr
            let _ ← layerGlobal
            pure ()
        | _ => .error e
  { post := self, calls := [], ret := afterTry }

/-- `Grid.__str__(self)`: returns `str(self._grid.toString())`; dereferencing
`None` raises AttributeError. -/
def Grid.toStr (self : Grid) : PyResult String :=
  match self._grid with
  | none =>
      { post := self, calls := []
        ret := .error (.attributeError "NoneType object has no attribute toString") }
  | some g =>
      { post := self, calls := [.toStringQuery], ret := .ok g.toStringQuery }

/-- A concrete engine used to instantiate hypotheses of the theorems below. -/
def demoEngine : GeoTessGrid where
  getFirstTriangle := fun _ _ => 4
  getLastTriangle := fun _ _ => 7
  getTriangleVertexIndexes := fun t => (t, t + 1, t + 2)
  toStringQuery := "demo"

/-- A `Grid` holding the concrete engine. -/
def demoGrid : Grid := { _grid := some demoEngine }

/-- A concrete engine library for instantiating constructor theorems. -/
def demoLib : LibGeoTess where
  newGrid := demoEngine
  loadGrid := fun g _ => g

/-- Modelled from the spec: one triangle record of the TriangleStore — three
vertex indices plus its level and tessellation id.  The builder and the
neighbor graph live in the native engine, whose sources are not under `src/`;
per the spec, neighbor links are computed by shared-edge matching. -/
structure SpecTriangle where
  v0 : Nat
  v1 : Nat
  v2 : Nat
  level : Nat
  tessId : Nat
  deriving Repr, DecidableEq

/-- The set of vertex indices of a triangle. -/
def SpecTriangle.vertexSet (t : SpecTriangle) : Finset Nat := {t.v0, t.v1, t.v2}

/-- Modelled from the spec: shared-edge neighbor matching — two distinct
triangles of the same tessellation and level are neighbors iff they share
exactly 2 vertex indices (i.e. one edge). -/
def isNeighbor (store : List SpecTriangle) (i j : Nat) : Bool :=
  match store[i]?, store[j]? with
  | some a, some b =>
      decide (i ≠ j ∧ a.level = b.level ∧ a.tessId = b.tessId ∧
        (SpecTriangle.vertexSet a ∩ SpecTriangle.vertexSet b).card = 2)
  | _, _ => false

/-- Modelled from the spec: `neighborsOf(triIndex)` — the neighbor list of
triangle `i` in a built grid, as produced by shared-edge matching over the
triangle store. -/
def neighborsOf (store : List SpecTriangle) (i : Nat) : List Nat :=
  (List.range store.length).filter (fun j => isNeighbor store i j)

/-- A concrete two-triangle store whose triangles share the edge (1,2). -/
def demoStore : List SpecTriangle :=
  [⟨0, 1, 2, 0, 0⟩, ⟨1, 2, 3, 0, 0⟩]

/-- Helper: a query leaves the `Grid` object unchanged. -/
theorem Grid.triangles_post (self : Grid) (tess level : Int) (masked : Option Bool) :
    (Grid.triangles self tess level masked).post = self := by
  rcases self with ⟨og⟩
  cases og <;> rfl

/-- Claim C1: with a loaded engine handle, `Grid.triangles(tess, level)`
returns exactly one vertex-index triple per triangle id in the half-open range
`[getFirstTriangle(tess, level), getLastTriangle(tess, level))`, in increasing
triangle-index order, the i-th row being `getTriangleVertexIndexes(first + i)`. -/
theorem C1_triangles_rows (self : Grid) (g : GeoTessGrid) (tess level : Int)
    (masked : Option Bool) (h : self._grid = some g) :
    ∃ out, (Grid.triangles self tess level masked).ret = .ok out ∧
      out.length = (g.getLastTriangle tess level - g.getFirstTriangle tess level).toNat ∧
      ∀ i, (hi : i < out.length) →
        out[i] = g.getTriangleVertexIndexes (g.getFirstTriangle tess level + (i : Int)) := by
  rcases self with ⟨og⟩
  cases og with
  | none => simp at h
  | some g0 =>
    obtain rfl : g0 = g := by simpa using h
    refine ⟨_, rfl, ?_, ?_⟩
    · simp [List.length_map, List.length_range]
    · intro i hi
      simp [List.getElem_map, List.getElem_range]

/-- Witness for C1 at the concrete grid `demoGrid`. -/
theorem C1_witness :
    ∃ out, (Grid.triangles demoGrid 0 0 none).ret = .ok out ∧
      out.length =
        (demoEngine.getLastTriangle 0 0 - demoEngine.getFirstTriangle 0 0).toNat ∧
      ∀ i, (hi : i < out.length) →
        out[i] = demoEngine.getTriangleVertexIndexes
          (demoEngine.getFirstTriangle 0 0 + (i : Int)) :=
  C1_triangles_rows demoGrid demoEngine 0 0 none rfl

/-- Claim C2, code evaluated at the failing input: on a loaded grid,
`vertices(tess=0, level=0)` raises AttributeError (from `self.layers`)
instead of returning restricted coordinates or raising NotFound. -/
theorem C2_vertices_raises_at_failing_input :
    (Grid.vertices demoGrid (some 0) (some 0) true).ret =
      .error (.attributeError "Grid object has no attribute layers") := rfl

/-- Claim C3: every query (`triangles`, `vertices`, `__str__`) leaves the
`Grid` object unchanged — whether it returns or raises — and performs only
read-only engine calls. -/
theorem C3_queries_read_only (self : Grid) (tess level : Int) (masked : Option Bool)
    (vtess vlevel : Option Int) (connected : Bool) :
    ((Grid.triangles self tess level masked).post = self ∧
      ∀ c ∈ (Grid.triangles self tess level masked).calls, c.readOnly = true) ∧
    ((Grid.vertices self vtess vlevel connected).post = self ∧
      ∀ c ∈ (Grid.vertices self vtess vlevel connected).calls, c.readOnly = true) ∧
    ((Grid.toStr self).post = self ∧
      ∀ c ∈ (Grid.toStr self).calls, c.readOnly = true) := by
  refine ⟨⟨Grid.triangles_post self tess level masked, ?_⟩,
          ⟨rfl, ?_⟩, ?_, ?_⟩
  · rcases self with ⟨og⟩
    cases og with
    | none => intro c hc; exact absurd hc (List.not_mem_nil c)
    | some g =>
        intro c hc
        rcases List.mem_append.mp hc with h2 | hmap
        · simp only [List.mem_cons, List.not_mem_nil, or_false] at h2
          rcases h2 with rfl | rfl <;> rfl
        · obtain ⟨tid, _, rfl⟩ := List.mem_map.mp hmap
          rfl
  · intro c hc; exact absurd hc (List.not_mem_nil c)
  · rcases self with ⟨og⟩; cases og <;> rfl
  · rcases self with ⟨og⟩
    cases og with
    | none => intro c hc; exact absurd hc (List.not_mem_nil c)
    | some g =>
        intro c hc
        have hc2 : c ∈ [EngineCall.toStringQuery] := hc
        simp only [List.mem_cons, List.not_mem_nil, or_false] at hc2
        subst hc2; rfl

/-- Claim C4: two successive calls of `triangles` with the same arguments —
the second starting from the post-state of the first — return identical
sequences. -/
theorem C4_triangles_idempotent (self : Grid) (tess level : Int) (masked : Option Bool) :
    (Grid.triangles (Grid.triangles self tess level masked).post tess level masked).ret =
      (Grid.triangles self tess level masked).ret := by
  rw [Grid.triangles_post]

/-- Claim C5: the `masked` argument has no effect on the result of
`triangles` — the masked-triangle filter is unimplemented. -/
theorem C5_masked_no_effect (self : Grid) (tess level : Int) (m1 m2 : Option Bool) :
    Grid.triangles self tess level m1 = Grid.triangles self tess level m2 := rfl

/-- Claim C6: `Grid(None)` yields an empty instance with an absent engine
handle; `Grid(path)` with a non-empty path constructs an engine object, loads
the file into it, and performs no other engine call. -/
theorem C6_init_lifecycle (lib : LibGeoTess) (s : String) (h : s ≠ "") :
    Grid.init lib none = ({ _grid := none }, []) ∧
    Grid.init lib (some s) =
      ({ _grid := some (lib.loadGrid lib.newGrid s) },
       [.newGridCtor, .loadGridCall s]) := by
  exact ⟨rfl, by simp [Grid.init, h]⟩

/-- Witness for C6 at the concrete library and path. -/
theorem C6_witness :
    "file.grid" ≠ "" ∧
    (Grid.init demoLib none = ({ _grid := none }, []) ∧
     Grid.init demoLib (some "file.grid") =
       ({ _grid := some (demoLib.loadGrid demoLib.newGrid "file.grid") },
        [.newGridCtor, .loadGridCall "file.grid"])) :=
  ⟨by decide, C6_init_lifecycle demoLib "file.grid" (by decide)⟩

/-- Claim C7: in a built grid, the shared-edge neighbor relation is
symmetric — if `N` appears in `T`'s neighbor list then `T` appears in `N`'s. -/
theorem C7_neighbor_symmetric (store : List SpecTriangle) (i j : Nat)
    (h : j ∈ neighborsOf store i) : i ∈ neighborsOf store j := by
  rw [neighborsOf, List.mem_filter, List.mem_range] at h
  obtain ⟨hj, hn⟩ := h
  rw [neighborsOf, List.mem_filter, List.mem_range]
  rw [isNeighbor] at hn
  rcases hgi : store[i]? with _ | a
  · rw [hgi] at hn
    cases hgj : store[j]? <;> rw [hgj] at hn <;> simp at hn
  rcases hgj : store[j]? with _ | b
  · rw [hgi, hgj] at hn; simp at hn
  rw [hgi, hgj] at hn
  have hp := of_decide_eq_true hn
  obtain ⟨hne, hlev, htess, hcard⟩ := hp
  have hi : i < store.length := by
    by_contra hge
    rw [List.getElem?_eq_none (by omega)] at hgi
    exact Option.noConfusion hgi
  refine ⟨hi, ?_⟩
  rw [isNeighbor, hgj, hgi]
  exact decide_eq_true ⟨Ne.symm hne, hlev.symm, htess.symm, by rw [Finset.inter_comm]; exact hcard⟩

/-- Witness for C7 on the concrete two-triangle store. -/
theorem C7_witness :
    1 ∈ neighborsOf demoStore 0 ∧ 0 ∈ neighborsOf demoStore 1 :=
  ⟨by decide, C7_neighbor_symmetric demoStore 0 1 (by decide)⟩

/-- Claim C8: `Grid.vertices` never returns a value: for every instance and
every combination of arguments it raises AttributeError (the lookup of the
nonexistent `self.layers`, which the `except TypeError` clause does not
catch). -/
theorem C8_vertices_always_raises (self : Grid) (tess level : Option Int)
    (connected : Bool) :
    (Grid.vertices self tess level connected).ret =
      .error (.attributeError "Grid object has no attribute layers") := rfl

/-- Claim C9: on an empty `Grid` (`_grid` is `None`), both `triangles` and
`__str__` raise AttributeError from dereferencing the absent engine handle. -/
theorem C9_empty_grid_queries_raise (self : Grid) (h : self._grid = none)
    (tess level : Int) (masked : Option Bool) :
    (∃ msg, (Grid.triangles self tess level masked).ret = .error (.attributeError msg)) ∧
    (∃ msg, (Grid.toStr self).ret = .error (.attributeError msg)) := by
  rcases self with ⟨og⟩
  cases og with
  | none => exact ⟨⟨_, rfl⟩, ⟨_, rfl⟩⟩
  | some g => simp at h

/-- Witness for C9 on the literal empty grid. -/
theorem C9_witness :
    (∃ msg, (Grid.triangles (Grid.mk none) 0 0 none).ret = .error (.attributeError msg)) ∧
    (∃ msg, (Grid.toStr (Grid.mk none)).ret = .error (.attributeError msg)) :=
  C9_empty_grid_queries_raise (Grid.mk none) rfl 0 0 none

/-- Claim C10: `from_geotessgrid(g)` wraps exactly the passed engine instance,
performs no engine call (in particular never `loadGrid`), and its result does
not depend on the engine library at all. -/
theorem C10_from_geotessgrid_wraps (lib lib2 : LibGeoTess) (gtgrid : GeoTessGrid) :
    (Grid.from_geotessgrid lib gtgrid).1._grid = some gtgrid ∧
    (Grid.from_geotessgrid lib gtgrid).2 = [] ∧
    Grid.from_geotessgrid lib gtgrid = Grid.from_geotessgrid lib2 gtgrid :=
  ⟨rfl, rfl, rfl⟩

end PyGeoTess
